import Mathlib

/-!
Verification development for the Gaia-X credential CLI pipeline
(`src/index.js`): the compliance submission client (`signCredentials`),
the build workflow (`actionCredentials`), the present-and-sign workflow
(`actionVP`) and the CLI command table, shallowly embedded in Lean.

External collaborators that live in modules outside the shown source
(`config.js`, `utils.js`, `participant.js`, `service.js`) are either
modelled from the specification (the presentation assembler) or supplied
as parameters of the embedding (name derivation, URL/path joining, the
credential builders, the filesystem and the network).

Effects are made observable through an explicit event trace: each
workflow returns its `Except` outcome together with the ordered list of
filesystem reads, compliance POSTs, file writes and builder invocations
it performed, in execution order.
-/

/-- JSON values as passed around by the JavaScript source (credential
documents are dynamically shaped JSON). Numbers are modelled as integers,
which suffices here: the pipeline never does arithmetic on documents. -/
inductive Json where
  | null : Json
  | bool (b : Bool) : Json
  | num (n : Int) : Json
  | str (s : String) : Json
  | arr (elems : List Json) : Json
  | obj (fields : List (String × Json)) : Json

/-- JavaScript truthiness of a JSON value: `null`, `false`, `0` and the
empty string are falsy; every array and object is truthy. This drives the
`(err.response && err.response.data) || err` expression in the source. -/
def Json.truthy : Json → Bool
  | .null => false
  | .bool b => b
  | .num n => n != 0
  | .str s => s != ""
  | .arr _ => true
  | .obj _ => true

/-- An axios HTTP response as far as the error path of `signCredentials`
inspects it: only the `data` field (the parsed response body) is read. -/
structure AxiosResponse where
  data : Json

/-- An axios error: a message plus, when the server answered at all, the
response. A pure transport error (connection refused, timeout) has
`response = none`, mirroring `err.response` being `undefined`. -/
structure AxiosError where
  message : String
  response : Option AxiosResponse

/-- The diagnostic payload selected by the `catch` block of
`signCredentials`: either the remote response body or the raw error. -/
inductive ErrPayload where
  | remote (data : Json) : ErrPayload
  | transport (err : AxiosError) : ErrPayload

/-- `const errMsg = (err.response && err.response.data) || err;` from
`src/index.js` line 44, with JavaScript truthiness made explicit:
the remote body is selected only when the response exists and its `data`
is truthy; otherwise the raw error object is kept. -/
def complianceErrMsg (err : AxiosError) : ErrPayload :=
  match err.response with
  | some r => if r.data.truthy then .remote r.data else .transport err
  | none => .transport err

/-- Errors that abort a workflow. `compliance` is the error thrown by
`signCredentials` (line 46); it carries the selected payload whole, which
the source serializes with `JSON.stringify` into the thrown message.
`readFailed`/`parseFailed` model a rejected `fs.readFile`/`JSON.parse`
throw in `actionVP`; `builderFailed` a rejection of one of the builder
collaborators in `actionCredentials`. -/
inductive PipelineError where
  | compliance (payload : ErrPayload) : PipelineError
  | readFailed (path : String) (msg : String) : PipelineError
  | parseFailed (path : String) (msg : String) : PipelineError
  | builderFailed (step : String) (msg : String) : PipelineError

/-- Modelled from the spec: the VerifiablePresentation envelope of §3 -
`@context`, a `type` including "VerifiablePresentation", and
`verifiableCredential`, an ordered sequence of VCs. The assembler
`buildVerifiablePresentation` lives in `utils.js`, which is not under
`src/`; §4.3 specifies it as a pure function wrapping the input sequence,
preserving order, with no network or disk access. -/
structure VerifiablePresentation where
  context : List String
  type : List String
  verifiableCredential : List Json

/-- Modelled from the spec (§4.3): wraps the ordered input sequence of
credentials under the VP envelope, preserving order. Purity and the
absence of I/O are reflected in the type: it is a plain function from the
credential list to the presentation. -/
def buildVerifiablePresentation (verifiableCredentials : List Json) :
    VerifiablePresentation :=
  { context := ["https://www.w3.org/2018/credentials/v1"]
    type := ["VerifiablePresentation"]
    verifiableCredential := verifiableCredentials }

/-- The fully-resolved configuration object returned by `getConfig()`:
exactly the fields `src/index.js` reads. -/
structure Config where
  urlAPICompliance : String
  openAPISpec : String
  baseUrl : String
  webserverDir : String
  didWebId : String
  urlParticipant : String
  urlTermsConditions : String
  urlServiceOffering : String
  pathParticipant : String
  pathLRN : String
  pathTermsConditions : String
  pathServiceOffering : String
  pathVerifiablePresentation : String

/-- Modelled from the spec: pure helper collaborators imported from
`config.js` and `utils.js`, which are not under `src/`. §4.1 requires the
resource names to be derived deterministically from the OpenAPI spec, so
they are supplied as arbitrary (hence deterministic) Lean functions;
`joinUrl` and `path.join` are likewise arbitrary pure joining functions.
Every theorem below holds for every choice of these functions. -/
structure Helpers where
  getVirtualResourceName : String → String
  getInstantiatedVirtualResourceName : String → String
  joinUrl : String → String → String
  pathJoin : String → String → String

/-- Arguments `actionCredentials` passes to `buildOpenAPIResources`
(lines 92-101 of `src/index.js`). -/
structure OpenAPIResourceArgs where
  openAPIUrl : String
  didIssuer : String
  participantUrl : String
  virtResourceUrl : String
  virtResourceWritePath : String
  instVirtResourceUrl : String
  instVirtResourceWritePath : String

/-- Arguments `actionCredentials` passes to `buildServiceOffering`
(lines 108-116 of `src/index.js`). -/
structure ServiceOfferingArgs where
  didIssuer : String
  legalParticipantUrl : String
  termsConditionsPath : String
  termsConditionsUrl : String
  serviceOfferingUrl : String
  serviceOfferingWritePath : String
  aggregatedResourceUrls : List String

/-- Observable effects of the pipeline, in execution order: filesystem
reads, the POST to the compliance endpoint, file writes, and invocations
of the builder collaborators. -/
inductive Event where
  | readFile (path : String) : Event
  | postCompliance (url : String) (body : VerifiablePresentation) : Event
  | writeFile (path : String) (content : VerifiablePresentation) : Event
  | buildParticipant : Event
  | buildLRN : Event
  | buildTermsConditions : Event
  | buildResources (args : OpenAPIResourceArgs) : Event
  | buildServiceOffering (args : ServiceOfferingArgs) : Event

/-- Whether an event is a filesystem read. -/
def Event.isRead : Event → Bool
  | .readFile _ => true
  | _ => false

/-- Whether an event is a file write. -/
def Event.isWrite : Event → Bool
  | .writeFile _ _ => true
  | _ => false

/-- Whether an event is a POST to the compliance endpoint. -/
def Event.isPost : Event → Bool
  | .postCompliance _ _ => true
  | _ => false

/-- `signCredentials` from `src/index.js` lines 21-48: build a VP from
the supplied credentials, POST it once to the configured compliance
endpoint, return the response body on success; on any failure select the
diagnostic payload per `complianceErrMsg` and throw a single error
carrying it. The network is the collaborator `post`; the trace records
the one POST that is made in either case. -/
def signCredentials (config : Config)
    (post : String → VerifiablePresentation → Except AxiosError Json)
    (verifiableCredentials : List Json) :
    Except PipelineError Json × List Event :=
  let verifiablePresentation := buildVerifiablePresentation verifiableCredentials
  match post config.urlAPICompliance verifiablePresentation with
  | .ok data =>
      (.ok data, [.postCompliance config.urlAPICompliance verifiablePresentation])
  | .error err =>
      (.error (.compliance (complianceErrMsg err)),
       [.postCompliance config.urlAPICompliance verifiablePresentation])

/-- The external collaborators of `actionVP`: the filesystem read
(`fs.readFile`, returning raw text or rejecting), `JSON.parse`, and the
network POST to the compliance endpoint. -/
structure VPEnv where
  fs : String → Except String String
  parse : String → Except String Json
  compliance : String → VerifiablePresentation → Except AxiosError Json

/-- `JSON.parse(await fs.readFile(path, 'utf-8'))` as used on lines
125-128 and 149-150 of `src/index.js`: read the file, then parse it;
either failure throws. -/
def readJson (env : VPEnv) (path : String) : Except PipelineError Json :=
  match env.fs path with
  | .error msg => .error (.readFailed path msg)
  | .ok raw =>
      match env.parse raw with
      | .error msg => .error (.parseFailed path msg)
      | .ok json => .ok json

/-- The virtual-resource URL computed by the build workflow
(`src/index.js` line 75). -/
def credsVirtResourceUrl (config : Config) (h : Helpers) : String :=
  h.joinUrl config.baseUrl (h.getVirtualResourceName config.openAPISpec ++ ".json")

/-- The instantiated-virtual-resource URL computed by the build workflow
(`src/index.js` lines 77-80). -/
def credsInstVirtResourceUrl (config : Config) (h : Helpers) : String :=
  h.joinUrl config.baseUrl
    (h.getInstantiatedVirtualResourceName config.openAPISpec ++ ".json")

/-- The virtual-resource write path computed by the build workflow
(`src/index.js` lines 82-85). -/
def credsVirtResourceWritePath (config : Config) (h : Helpers) : String :=
  h.pathJoin config.webserverDir
    (h.getVirtualResourceName config.openAPISpec ++ ".json")

/-- The instantiated-virtual-resource write path computed by the build
workflow (`src/index.js` lines 87-90). -/
def credsInstVirtResourceWritePath (config : Config) (h : Helpers) : String :=
  h.pathJoin config.webserverDir
    (h.getInstantiatedVirtualResourceName config.openAPISpec ++ ".json")

/-- The virtual-resource path re-derived by the present-and-sign
workflow (`src/index.js` lines 131-142): the same name derivation from
the same OpenAPI spec value, joined with the same webserver directory. -/
def vpVirtResourceWritePath (config : Config) (h : Helpers) : String :=
  h.pathJoin config.webserverDir
    (h.getVirtualResourceName config.openAPISpec ++ ".json")

/-- The instantiated-virtual-resource path re-derived by the
present-and-sign workflow (`src/index.js` lines 135-147). -/
def vpInstVirtResourceWritePath (config : Config) (h : Helpers) : String :=
  h.pathJoin config.webserverDir
    (h.getInstantiatedVirtualResourceName config.openAPISpec ++ ".json")

/-- The six on-disk documents `actionVP` reads, in the order the source
reads them (`src/index.js` lines 125-128 and 149-150). -/
def vpReadPaths (config : Config) (h : Helpers) : List String :=
  [config.pathParticipant, config.pathLRN, config.pathTermsConditions,
   config.pathServiceOffering,
   vpVirtResourceWritePath config h, vpInstVirtResourceWritePath config h]

/-- `actionVP` from `src/index.js` lines 121-172: read the four base VCs
and the two resource VCs from disk (re-deriving the resource paths from
the OpenAPI spec), submit the four base VCs to `signCredentials`, then
build the final VP from the seven-credential sequence and write it to the
configured VP path. Any rejection propagates and stops the remaining
steps, mirroring the awaited straight-line `async` source. -/
def actionVP (config : Config) (h : Helpers) (env : VPEnv) :
    Except PipelineError Unit × List Event :=
  match readJson env config.pathParticipant with
  | .error e => (.error e, [.readFile config.pathParticipant])
  | .ok vcParticipant =>
  match readJson env config.pathLRN with
  | .error e =>
      (.error e, [.readFile config.pathParticipant, .readFile config.pathLRN])
  | .ok vcLRN =>
  match readJson env config.pathTermsConditions with
  | .error e =>
      (.error e, [.readFile config.pathParticipant, .readFile config.pathLRN,
        .readFile config.pathTermsConditions])
  | .ok vcTC =>
  match readJson env config.pathServiceOffering with
  | .error e =>
      (.error e, [.readFile config.pathParticipant, .readFile config.pathLRN,
        .readFile config.pathTermsConditions, .readFile config.pathServiceOffering])
  | .ok vcSO =>
  match readJson env (vpVirtResourceWritePath config h) with
  | .error e =>
      (.error e, [.readFile config.pathParticipant, .readFile config.pathLRN,
        .readFile config.pathTermsConditions, .readFile config.pathServiceOffering,
        .readFile (vpVirtResourceWritePath config h)])
  | .ok vcVR =>
  match readJson env (vpInstVirtResourceWritePath config h) with
  | .error e =>
      (.error e, [.readFile config.pathParticipant, .readFile config.pathLRN,
        .readFile config.pathTermsConditions, .readFile config.pathServiceOffering,
        .readFile (vpVirtResourceWritePath config h),
        .readFile (vpInstVirtResourceWritePath config h)])
  | .ok vcIVR =>
  match signCredentials config env.compliance [vcParticipant, vcLRN, vcTC, vcSO] with
  | (.error e, t) =>
      (.error e, [.readFile config.pathParticipant, .readFile config.pathLRN,
        .readFile config.pathTermsConditions, .readFile config.pathServiceOffering,
        .readFile (vpVirtResourceWritePath config h),
        .readFile (vpInstVirtResourceWritePath config h)] ++ t)
  | (.ok vcCompliance, t) =>
      (.ok (), [.readFile config.pathParticipant, .readFile config.pathLRN,
        .readFile config.pathTermsConditions, .readFile config.pathServiceOffering,
        .readFile (vpVirtResourceWritePath config h),
        .readFile (vpInstVirtResourceWritePath config h)] ++ t ++
        [.writeFile config.pathVerifiablePresentation
          (buildVerifiablePresentation
            [vcParticipant, vcLRN, vcTC, vcSO, vcCompliance, vcVR, vcIVR])])

/-- The builder collaborators of `actionCredentials`, imported from
`participant.js` and `service.js` (not under `src/`): each either
resolves to the VC it built or rejects. `buildOpenAPIResources` resolves
to the pair (instantiated virtual resource VC, virtual resource VC). -/
structure CredEnv where
  buildParticipantVC : Except PipelineError Json
  buildLegalRegistrationNumberVC : Except PipelineError Json
  buildTermsConditionsVC : Except PipelineError Json
  buildOpenAPIResources : OpenAPIResourceArgs → Except PipelineError (Json × Json)
  buildServiceOffering : ServiceOfferingArgs → Except PipelineError Json

/-- The argument record `actionCredentials` passes to
`buildOpenAPIResources` (`src/index.js` lines 92-101). -/
def credsResourceArgs (config : Config) (h : Helpers) : OpenAPIResourceArgs :=
  { openAPIUrl := config.openAPISpec
    didIssuer := config.didWebId
    participantUrl := config.urlParticipant
    virtResourceUrl := credsVirtResourceUrl config h
    virtResourceWritePath := credsVirtResourceWritePath config h
    instVirtResourceUrl := credsInstVirtResourceUrl config h
    instVirtResourceWritePath := credsInstVirtResourceWritePath config h }

/-- The argument record `actionCredentials` passes to
`buildServiceOffering` (`src/index.js` lines 108-116): the aggregated
resource list is exactly the singleton of the virtual-resource URL. -/
def credsServiceOfferingArgs (config : Config) (h : Helpers) : ServiceOfferingArgs :=
  { didIssuer := config.didWebId
    legalParticipantUrl := config.urlParticipant
    termsConditionsPath := config.pathTermsConditions
    termsConditionsUrl := config.urlTermsConditions
    serviceOfferingUrl := config.urlServiceOffering
    serviceOfferingWritePath := config.pathServiceOffering
    aggregatedResourceUrls := [credsVirtResourceUrl config h] }

/-- The full build-workflow step sequence, in source order. -/
def credsFullTrace (config : Config) (h : Helpers) : List Event :=
  [.buildParticipant, .buildLRN, .buildTermsConditions,
   .buildResources (credsResourceArgs config h),
   .buildServiceOffering (credsServiceOfferingArgs config h)]

/-- `actionCredentials` from `src/index.js` lines 50-119: Participant,
then LRN, then Terms and Conditions, then the OpenAPI resource
translation, then the Service Offering, which aggregates exactly the
virtual-resource URL computed in the resource step. Each awaited step's
rejection stops all later steps. -/
def actionCredentials (config : Config) (h : Helpers) (env : CredEnv) :
    Except PipelineError Unit × List Event :=
  match env.buildParticipantVC with
  | .error e => (.error e, [.buildParticipant])
  | .ok _vcParticipant =>
  match env.buildLegalRegistrationNumberVC with
  | .error e => (.error e, [.buildParticipant, .buildLRN])
  | .ok _vcLRN =>
  match env.buildTermsConditionsVC with
  | .error e => (.error e, [.buildParticipant, .buildLRN, .buildTermsConditions])
  | .ok _vcTC =>
  match env.buildOpenAPIResources (credsResourceArgs config h) with
  | .error e =>
      (.error e, [.buildParticipant, .buildLRN, .buildTermsConditions,
        .buildResources (credsResourceArgs config h)])
  | .ok _vcs =>
  match env.buildServiceOffering (credsServiceOfferingArgs config h) with
  | .error e =>
      (.error e, [.buildParticipant, .buildLRN, .buildTermsConditions,
        .buildResources (credsResourceArgs config h),
        .buildServiceOffering (credsServiceOfferingArgs config h)])
  | .ok _vcSO =>
      (.ok (), [.buildParticipant, .buildLRN, .buildTermsConditions,
        .buildResources (credsResourceArgs config h),
        .buildServiceOffering (credsServiceOfferingArgs config h)])

/-- A CLI command as registered on the `commander` program object:
its name and its help description. -/
structure CommandSpec where
  name : String
  description : String

/-- The `credentials` command (`src/index.js` lines 190-193): its action
is `actionCredentials`, yet its description reads "Build and sign". -/
def credentialsCommand : CommandSpec :=
  { name := "credentials"
    description := "Build and sign the Verifiable Credentials" }

/-- The `vp` command (`src/index.js` lines 195-198): its action is
`actionVP`, the only workflow that contacts the compliance endpoint. -/
def vpCommand : CommandSpec :=
  { name := "vp"
    description := "Build and sign the VP" }

/-- A concrete configuration used to instantiate the theorems below. -/
def cfg0 : Config :=
  { urlAPICompliance := "https://compliance.lab.gaia-x.eu/api/credential-offers"
    openAPISpec := "https://petstore3.swagger.io/api/v3/openapi.json"
    baseUrl := "https://gaiax.example.com"
    webserverDir := "/var/www/html"
    didWebId := "did:web:gaiax.example.com"
    urlParticipant := "https://gaiax.example.com/participant.json"
    urlTermsConditions := "https://gaiax.example.com/tsandcs.json"
    urlServiceOffering := "https://gaiax.example.com/service-offering.json"
    pathParticipant := "/var/www/html/participant.json"
    pathLRN := "/var/www/html/lrn.json"
    pathTermsConditions := "/var/www/html/tsandcs.json"
    pathServiceOffering := "/var/www/html/service-offering.json"
    pathVerifiablePresentation := "/var/www/html/vp.json" }

/-- Concrete helper collaborators used to instantiate the theorems below. -/
def helpers0 : Helpers :=
  { getVirtualResourceName := fun _ => "virtual-resource"
    getInstantiatedVirtualResourceName := fun _ => "instantiated-virtual-resource"
    joinUrl := fun a b => a ++ "/" ++ b
    pathJoin := fun a b => a ++ "/" ++ b }

/-- A sample credential document. -/
def vcSample : Json := Json.obj [("type", Json.str "VerifiableCredential")]

/-- A sample signed compliance credential. -/
def vcComplianceSample : Json := Json.obj [("type", Json.str "gx:compliance")]

/-- An environment in which every read, parse and compliance call
succeeds. -/
def envOk : VPEnv :=
  { fs := fun _ => .ok "document"
    parse := fun _ => .ok vcSample
    compliance := fun _ _ => .ok vcComplianceSample }

/-- An axios error for a non-success response whose body is the payload
`\x7b"error":"invalid"\x7d`. -/
def errRemote : AxiosError :=
  { message := "Request failed with status code 409"
    response := some { data := Json.obj [("error", Json.str "invalid")] } }

/-- An axios error for a non-success response whose body is the valid but
falsy JSON document `false`. -/
def errFalsyBody : AxiosError :=
  { message := "Request failed with status code 500"
    response := some { data := Json.bool false } }

/-- An environment in which the reads succeed and the compliance endpoint
rejects the presentation with the body `\x7b"error":"invalid"\x7d`. -/
def envReject : VPEnv :=
  { fs := fun _ => .ok "document"
    parse := fun _ => .ok vcSample
    compliance := fun _ _ => .error errRemote }

/-- An environment whose filesystem rejects every read. -/
def envNoFiles : VPEnv :=
  { fs := fun _ => .error "ENOENT: no such file or directory"
    parse := fun _ => .error "Unexpected end of JSON input"
    compliance := fun _ _ => .ok vcComplianceSample }

/-- Builder collaborators that all succeed. -/
def cenvOk : CredEnv :=
  { buildParticipantVC := .ok vcSample
    buildLegalRegistrationNumberVC := .ok vcSample
    buildTermsConditionsVC := .ok vcSample
    buildOpenAPIResources := fun _ => .ok (vcSample, vcSample)
    buildServiceOffering := fun _ => .ok vcSample }

/-- Claim C4: for every input sequence of credentials,
`buildVerifiablePresentation` is a pure function (its Lean type has no
effect parameter) returning a VP whose `verifiableCredential` sequence is
exactly the input sequence in the same order; in particular on `[A, B, C]`
it yields exactly `[A, B, C]`. -/
theorem buildVerifiablePresentation_preserves_order
    (credentials : List Json) :
    (buildVerifiablePresentation credentials).verifiableCredential = credentials :=
  rfl

/-- Claim C5: every invocation of `signCredentials` builds a VP from the
supplied credentials with the presentation assembler, performs exactly one
POST of that VP to the configured compliance endpoint (its trace is the
one-element post list, so no retry ever happens), and on success returns
the endpoint's response body unchanged. -/
theorem signCredentials_single_post (config : Config)
    (post : String → VerifiablePresentation → Except AxiosError Json)
    (verifiableCredentials : List Json) :
    (signCredentials config post verifiableCredentials).2 =
      [.postCompliance config.urlAPICompliance
        (buildVerifiablePresentation verifiableCredentials)] ∧
    ∀ data,
      post config.urlAPICompliance
          (buildVerifiablePresentation verifiableCredentials) = .ok data →
      (signCredentials config post verifiableCredentials).1 = .ok data := by
  constructor
  · cases hp : post config.urlAPICompliance
      (buildVerifiablePresentation verifiableCredentials) <;>
      simp [signCredentials, hp]
  · intro data hdata
    simp [signCredentials, hdata]

/-- Witness for C5 at a concrete configuration and network. -/
theorem signCredentials_single_post_witness :
    (signCredentials cfg0 (fun _ _ => Except.ok vcComplianceSample) [vcSample]).1 =
      Except.ok vcComplianceSample :=
  (signCredentials_single_post cfg0 (fun _ _ => Except.ok vcComplianceSample)
    [vcSample]).2 vcComplianceSample rfl

/-- Claim C3 counterexample: at the concrete failure `errFalsyBody` a
response body is available — the server answered with the valid JSON
document `false` — yet the error thrown by `signCredentials` carries
the raw transport error, not that remote payload: the `||` in
`(err.response && err.response.data) || err` falls through on every
falsy body. -/
theorem signCredentials_payload_cex :
    errFalsyBody.response = some { data := Json.bool false } ∧
    (signCredentials cfg0 (fun _ _ => Except.error errFalsyBody) [vcSample]).1 =
      Except.error (.compliance (.transport errFalsyBody)) ∧
    (signCredentials cfg0 (fun _ _ => Except.error errFalsyBody) [vcSample]).1 ≠
      Except.error (.compliance (.remote (Json.bool false))) := by
  refine ⟨rfl, rfl, ?_⟩
  intro hcontra
  simp [signCredentials, complianceErrMsg, errFalsyBody, Json.truthy] at hcontra

/-- Claim C3 (amended): for every failure of the compliance request,
`signCredentials` throws a single error carrying the payload selected by
`complianceErrMsg`: the remote response body when the response exists and
its body is truthy, and otherwise — no response at all, or a falsy body
such as `false`, `0`, the empty string or `null` — the raw transport
error; the selected payload is attached whole to the thrown error (the
source serializes it into the message), so it is never silently
discarded. -/
theorem signCredentials_error_payload (config : Config)
    (post : String → VerifiablePresentation → Except AxiosError Json)
    (creds : List Json) (err : AxiosError)
    (hpost : post config.urlAPICompliance
      (buildVerifiablePresentation creds) = .error err) :
    (signCredentials config post creds).1 =
      .error (.compliance (complianceErrMsg err)) ∧
    (∀ r, err.response = some r → r.data.truthy = true →
      complianceErrMsg err = .remote r.data) ∧
    (err.response = none → complianceErrMsg err = .transport err) ∧
    (∀ r, err.response = some r → r.data.truthy = false →
      complianceErrMsg err = .transport err) := by
  refine ⟨by simp [signCredentials, hpost], ?_, ?_, ?_⟩
  · intro r hr htruthy
    simp [complianceErrMsg, hr, htruthy]
  · intro hr
    simp [complianceErrMsg, hr]
  · intro r hr htruthy
    simp [complianceErrMsg, hr, htruthy]

/-- Witness for the amended C3: a rejection whose body is the truthy
payload carrying `error: invalid` is attached to the thrown error. -/
theorem signCredentials_error_payload_witness :
    (signCredentials cfg0 (fun _ _ => Except.error errRemote) [vcSample]).1 =
      Except.error
        (.compliance (.remote (Json.obj [("error", Json.str "invalid")]))) :=
  (signCredentials_error_payload cfg0 (fun _ _ => Except.error errRemote)
    [vcSample] errRemote rfl).1

/-- Claim C1: in the present-and-sign workflow, exactly the four base
credentials (Participant, LRN, Terms and Conditions, Service Offering, in
that order) are submitted to `signCredentials` — the one POST body is the
presentation of exactly that four-element sequence — and the final
persisted VP is built from the seven-credential sequence [Participant,
LRN, Terms and Conditions, ServiceOffering, ComplianceVC,
VirtualResourceVC, InstantiatedResourceVC] in exactly that order, written
to the configured VP path. -/
theorem actionVP_final_presentation (config : Config) (h : Helpers)
    (env : VPEnv) (vcParticipant vcLRN vcTC vcSO vcVR vcIVR vcCompliance : Json)
    (hP : readJson env config.pathParticipant = .ok vcParticipant)
    (hL : readJson env config.pathLRN = .ok vcLRN)
    (hT : readJson env config.pathTermsConditions = .ok vcTC)
    (hS : readJson env config.pathServiceOffering = .ok vcSO)
    (hV : readJson env (vpVirtResourceWritePath config h) = .ok vcVR)
    (hI : readJson env (vpInstVirtResourceWritePath config h) = .ok vcIVR)
    (hC : env.compliance config.urlAPICompliance
        (buildVerifiablePresentation [vcParticipant, vcLRN, vcTC, vcSO]) =
      .ok vcCompliance) :
    actionVP config h env =
      (.ok (),
       [.readFile config.pathParticipant, .readFile config.pathLRN,
        .readFile config.pathTermsConditions,
        .readFile config.pathServiceOffering,
        .readFile (vpVirtResourceWritePath config h),
        .readFile (vpInstVirtResourceWritePath config h),
        .postCompliance config.urlAPICompliance
          (buildVerifiablePresentation [vcParticipant, vcLRN, vcTC, vcSO]),
        .writeFile config.pathVerifiablePresentation
          (buildVerifiablePresentation
            [vcParticipant, vcLRN, vcTC, vcSO, vcCompliance, vcVR, vcIVR])]) := by
  simp [actionVP, signCredentials, hP, hL, hT, hS, hV, hI, hC]

/-- Witness for C1 in the all-success environment: the run ends in the
single write of the seven-credential presentation. -/
theorem actionVP_final_presentation_witness :
    actionVP cfg0 helpers0 envOk =
      (.ok (),
       [.readFile cfg0.pathParticipant, .readFile cfg0.pathLRN,
        .readFile cfg0.pathTermsConditions,
        .readFile cfg0.pathServiceOffering,
        .readFile (vpVirtResourceWritePath cfg0 helpers0),
        .readFile (vpInstVirtResourceWritePath cfg0 helpers0),
        .postCompliance cfg0.urlAPICompliance
          (buildVerifiablePresentation [vcSample, vcSample, vcSample, vcSample]),
        .writeFile cfg0.pathVerifiablePresentation
          (buildVerifiablePresentation
            [vcSample, vcSample, vcSample, vcSample, vcComplianceSample,
             vcSample, vcSample])]) :=
  actionVP_final_presentation cfg0 helpers0 envOk vcSample vcSample vcSample
    vcSample vcSample vcSample vcComplianceSample rfl rfl rfl rfl rfl rfl rfl

/-- Claim C2: if the compliance submission fails, the present-and-sign
workflow aborts with the thrown compliance error and performs no file
write at all — in particular nothing is written to the configured VP
path, and the six credential files it touched were only read. -/
theorem actionVP_compliance_failure_no_write (config : Config) (h : Helpers)
    (env : VPEnv) (vcParticipant vcLRN vcTC vcSO vcVR vcIVR : Json)
    (err : AxiosError)
    (hP : readJson env config.pathParticipant = .ok vcParticipant)
    (hL : readJson env config.pathLRN = .ok vcLRN)
    (hT : readJson env config.pathTermsConditions = .ok vcTC)
    (hS : readJson env config.pathServiceOffering = .ok vcSO)
    (hV : readJson env (vpVirtResourceWritePath config h) = .ok vcVR)
    (hI : readJson env (vpInstVirtResourceWritePath config h) = .ok vcIVR)
    (hC : env.compliance config.urlAPICompliance
        (buildVerifiablePresentation [vcParticipant, vcLRN, vcTC, vcSO]) =
      .error err) :
    (actionVP config h env).1 =
      .error (.compliance (complianceErrMsg err)) ∧
    (actionVP config h env).2.filter Event.isWrite = [] := by
  simp [actionVP, signCredentials, hP, hL, hT, hS, hV, hI, hC, Event.isWrite]

/-- Witness for C2: a concrete rejection with body `error: invalid`
leaves the run write-free. -/
theorem actionVP_compliance_failure_no_write_witness :
    (actionVP cfg0 helpers0 envReject).1 =
      Except.error (.compliance (complianceErrMsg errRemote)) ∧
    (actionVP cfg0 helpers0 envReject).2.filter Event.isWrite = [] :=
  actionVP_compliance_failure_no_write cfg0 helpers0 envReject vcSample
    vcSample vcSample vcSample vcSample vcSample errRemote rfl rfl rfl rfl
    rfl rfl rfl

/-- Claim C6: in the present-and-sign workflow every on-disk read
precedes the compliance network call — whenever a POST occurs, the first
six events of the run are exactly the six reads, in source order — and a
failing read (missing or malformed file) makes the workflow abort before
any network request is made. -/
theorem actionVP_reads_before_network (config : Config) (h : Helpers)
    (env : VPEnv) :
    (∀ url body, Event.postCompliance url body ∈ (actionVP config h env).2 →
        (actionVP config h env).2.take 6 =
          (vpReadPaths config h).map Event.readFile) ∧
    (∀ p ∈ vpReadPaths config h, (∀ doc, readJson env p ≠ Except.ok doc) →
        ∀ url body,
          Event.postCompliance url body ∉ (actionVP config h env).2) := by
  constructor
  · intro url body hpost
    cases h1 : readJson env config.pathParticipant with
    | error e1 => simp [actionVP, h1] at hpost
    | ok v1 =>
    cases h2 : readJson env config.pathLRN with
    | error e2 => simp [actionVP, h1, h2] at hpost
    | ok v2 =>
    cases h3 : readJson env config.pathTermsConditions with
    | error e3 => simp [actionVP, h1, h2, h3] at hpost
    | ok v3 =>
    cases h4 : readJson env config.pathServiceOffering with
    | error e4 => simp [actionVP, h1, h2, h3, h4] at hpost
    | ok v4 =>
    cases h5 : readJson env (vpVirtResourceWritePath config h) with
    | error e5 => simp [actionVP, h1, h2, h3, h4, h5] at hpost
    | ok v5 =>
    cases h6 : readJson env (vpInstVirtResourceWritePath config h) with
    | error e6 => simp [actionVP, h1, h2, h3, h4, h5, h6] at hpost
    | ok v6 =>
    cases hc : env.compliance config.urlAPICompliance
        (buildVerifiablePresentation [v1, v2, v3, v4]) with
    | ok d =>
        simp [actionVP, signCredentials, h1, h2, h3, h4, h5, h6, hc,
          vpReadPaths]
    | error er =>
        simp [actionVP, signCredentials, h1, h2, h3, h4, h5, h6, hc,
          vpReadPaths]
  · intro p hp hfail url body hpost
    cases h1 : readJson env config.pathParticipant with
    | error e1 => simp [actionVP, h1] at hpost
    | ok v1 =>
    cases h2 : readJson env config.pathLRN with
    | error e2 => simp [actionVP, h1, h2] at hpost
    | ok v2 =>
    cases h3 : readJson env config.pathTermsConditions with
    | error e3 => simp [actionVP, h1, h2, h3] at hpost
    | ok v3 =>
    cases h4 : readJson env config.pathServiceOffering with
    | error e4 => simp [actionVP, h1, h2, h3, h4] at hpost
    | ok v4 =>
    cases h5 : readJson env (vpVirtResourceWritePath config h) with
    | error e5 => simp [actionVP, h1, h2, h3, h4, h5] at hpost
    | ok v5 =>
    cases h6 : readJson env (vpInstVirtResourceWritePath config h) with
    | error e6 => simp [actionVP, h1, h2, h3, h4, h5, h6] at hpost
    | ok v6 =>
    simp only [vpReadPaths, List.mem_cons, List.not_mem_nil, or_false] at hp
    rcases hp with rfl | rfl | rfl | rfl | rfl | rfl
    · exact hfail v1 h1
    · exact hfail v2 h2
    · exact hfail v3 h3
    · exact hfail v4 h4
    · exact hfail v5 h5
    · exact hfail v6 h6

/-- Witness for C6: with an empty filesystem the participant read fails
and no POST is ever attempted. -/
theorem actionVP_reads_before_network_witness :
    Event.postCompliance cfg0.urlAPICompliance
        (buildVerifiablePresentation [vcSample, vcSample, vcSample, vcSample]) ∉
      (actionVP cfg0 helpers0 envNoFiles).2 :=
  (actionVP_reads_before_network cfg0 helpers0 envNoFiles).2
    cfg0.pathParticipant (by simp [vpReadPaths])
    (fun doc hdoc => by simp [readJson, envNoFiles] at hdoc)
    cfg0.urlAPICompliance
    (buildVerifiablePresentation [vcSample, vcSample, vcSample, vcSample])

/-- Claim C7: the build workflow runs Participant, then LRN, then Terms
and Conditions, then the resource translation, then the Service Offering
— its trace is always a prefix (`take n`) of that canonical five-step
sequence, so a failure at any step prevents all later steps — the
Service Offering step receives exactly the virtual-resource URL computed
in the resource step, and a fully successful run performs all five steps. -/
theorem actionCredentials_sequencing (config : Config) (h : Helpers)
    (env : CredEnv) :
    (∃ n, (actionCredentials config h env).2 =
      (credsFullTrace config h).take n) ∧
    (credsServiceOfferingArgs config h).aggregatedResourceUrls =
      [(credsResourceArgs config h).virtResourceUrl] ∧
    ((actionCredentials config h env).1 = .ok () →
      (actionCredentials config h env).2 = credsFullTrace config h) := by
  refine ⟨?_, rfl, ?_⟩
  · cases h1 : env.buildParticipantVC with
    | error e1 => exact ⟨1, by simp [actionCredentials, h1, credsFullTrace]⟩
    | ok v1 =>
    cases h2 : env.buildLegalRegistrationNumberVC with
    | error e2 => exact ⟨2, by simp [actionCredentials, h1, h2, credsFullTrace]⟩
    | ok v2 =>
    cases h3 : env.buildTermsConditionsVC with
    | error e3 =>
        exact ⟨3, by simp [actionCredentials, h1, h2, h3, credsFullTrace]⟩
    | ok v3 =>
    cases h4 : env.buildOpenAPIResources (credsResourceArgs config h) with
    | error e4 =>
        exact ⟨4, by simp [actionCredentials, h1, h2, h3, h4, credsFullTrace]⟩
    | ok v4 =>
    cases h5 : env.buildServiceOffering (credsServiceOfferingArgs config h) with
    | error e5 =>
        exact ⟨5, by simp [actionCredentials, h1, h2, h3, h4, h5, credsFullTrace]⟩
    | ok v5 =>
        exact ⟨5, by simp [actionCredentials, h1, h2, h3, h4, h5, credsFullTrace]⟩
  · intro hok
    cases h1 : env.buildParticipantVC with
    | error e1 => simp [actionCredentials, h1] at hok
    | ok v1 =>
    cases h2 : env.buildLegalRegistrationNumberVC with
    | error e2 => simp [actionCredentials, h1, h2] at hok
    | ok v2 =>
    cases h3 : env.buildTermsConditionsVC with
    | error e3 => simp [actionCredentials, h1, h2, h3] at hok
    | ok v3 =>
    cases h4 : env.buildOpenAPIResources (credsResourceArgs config h) with
    | error e4 => simp [actionCredentials, h1, h2, h3, h4] at hok
    | ok v4 =>
    cases h5 : env.buildServiceOffering (credsServiceOfferingArgs config h) with
    | error e5 => simp [actionCredentials, h1, h2, h3, h4, h5] at hok
    | ok v5 =>
        simp [actionCredentials, h1, h2, h3, h4, h5, credsFullTrace]

/-- Witness for C7: when every builder succeeds the build workflow
performs exactly the five canonical steps in order. -/
theorem actionCredentials_sequencing_witness :
    (actionCredentials cfg0 helpers0 cenvOk).2 =
      credsFullTrace cfg0 helpers0 :=
  (actionCredentials_sequencing cfg0 helpers0 cenvOk).2.2 rfl

/-- Claim C8: the resource file paths computed by the build workflow and
the ones re-derived by the present-and-sign workflow coincide for every
configuration and every choice of the derivation helpers: both apply the
same name derivation to the same OpenAPI spec value and join with the
same webserver directory, so the reads of the second workflow target
exactly the write paths handed to the resource translator by the first. -/
theorem resource_paths_consistent (config : Config) (h : Helpers) :
    credsVirtResourceWritePath config h = vpVirtResourceWritePath config h ∧
    credsInstVirtResourceWritePath config h =
      vpInstVirtResourceWritePath config h ∧
    (credsResourceArgs config h).virtResourceWritePath =
      vpVirtResourceWritePath config h ∧
    (credsResourceArgs config h).instVirtResourceWritePath =
      vpInstVirtResourceWritePath config h ∧
    vpReadPaths config h =
      [config.pathParticipant, config.pathLRN, config.pathTermsConditions,
       config.pathServiceOffering, credsVirtResourceWritePath config h,
       credsInstVirtResourceWritePath config h] :=
  ⟨rfl, rfl, rfl, rfl, rfl⟩

/-- Claim C9: `buildServiceOffering` is only ever invoked by the build
workflow with the aggregated-resource list `[virtResourceUrl]` — exactly
one URL, never empty, and never containing the distinct
instantiated-virtual-resource URL — so the empty-aggregation error case
is unreachable from this workflow. -/
theorem serviceOffering_aggregates_virtual_only (config : Config)
    (h : Helpers) (env : CredEnv) (args : ServiceOfferingArgs)
    (hmem : Event.buildServiceOffering args ∈
      (actionCredentials config h env).2) :
    args.aggregatedResourceUrls = [credsVirtResourceUrl config h] ∧
    args.aggregatedResourceUrls.length = 1 ∧
    args.aggregatedResourceUrls ≠ [] ∧
    (credsInstVirtResourceUrl config h ≠ credsVirtResourceUrl config h →
      credsInstVirtResourceUrl config h ∉ args.aggregatedResourceUrls) := by
  have hargs : args = credsServiceOfferingArgs config h := by
    cases h1 : env.buildParticipantVC with
    | error e1 => simp [actionCredentials, h1] at hmem
    | ok v1 =>
    cases h2 : env.buildLegalRegistrationNumberVC with
    | error e2 => simp [actionCredentials, h1, h2] at hmem
    | ok v2 =>
    cases h3 : env.buildTermsConditionsVC with
    | error e3 => simp [actionCredentials, h1, h2, h3] at hmem
    | ok v3 =>
    cases h4 : env.buildOpenAPIResources (credsResourceArgs config h) with
    | error e4 => simp [actionCredentials, h1, h2, h3, h4] at hmem
    | ok v4 =>
    cases h5 : env.buildServiceOffering (credsServiceOfferingArgs config h) with
    | error e5 =>
        simp [actionCredentials, h1, h2, h3, h4, h5] at hmem
        exact hmem
    | ok v5 =>
        simp [actionCredentials, h1, h2, h3, h4, h5] at hmem
        exact hmem
  subst hargs
  refine ⟨rfl, rfl, by simp [credsServiceOfferingArgs], ?_⟩
  intro hne hmem2
  simp [credsServiceOfferingArgs] at hmem2
  exact hne hmem2

/-- Witness for C9 at the all-success build environment. -/
theorem serviceOffering_aggregates_virtual_only_witness :
    (credsServiceOfferingArgs cfg0 helpers0).aggregatedResourceUrls =
      [credsVirtResourceUrl cfg0 helpers0] :=
  (serviceOffering_aggregates_virtual_only cfg0 helpers0 cenvOk
    (credsServiceOfferingArgs cfg0 helpers0)
    (by simp [actionCredentials, cenvOk])).1

/-- Claim C10: the build workflow never contacts the compliance endpoint
— its trace contains no POST event for any environment — even though the
`credentials` command that triggers it is described as "Build and sign
the Verifiable Credentials"; compliance signing happens only in the `vp`
command's workflow. -/
theorem actionCredentials_no_compliance_call (config : Config) (h : Helpers)
    (env : CredEnv) :
    (actionCredentials config h env).2.filter Event.isPost = [] ∧
    credentialsCommand.description =
      "Build and sign the Verifiable Credentials" ∧
    credentialsCommand.name = "credentials" ∧
    vpCommand.name = "vp" := by
  refine ⟨?_, rfl, rfl, rfl⟩
  cases h1 : env.buildParticipantVC with
  | error e1 => simp [actionCredentials, h1, Event.isPost]
  | ok v1 =>
  cases h2 : env.buildLegalRegistrationNumberVC with
  | error e2 => simp [actionCredentials, h1, h2, Event.isPost]
  | ok v2 =>
  cases h3 : env.buildTermsConditionsVC with
  | error e3 => simp [actionCredentials, h1, h2, h3, Event.isPost]
  | ok v3 =>
  cases h4 : env.buildOpenAPIResources (credsResourceArgs config h) with
  | error e4 => simp [actionCredentials, h1, h2, h3, h4, Event.isPost]
  | ok v4 =>
  cases h5 : env.buildServiceOffering (credsServiceOfferingArgs config h) with
  | error e5 => simp [actionCredentials, h1, h2, h3, h4, h5, Event.isPost]
  | ok v5 => simp [actionCredentials, h1, h2, h3, h4, h5, Event.isPost]
